import Mathlib

/-!
Verification of the sign-matching / recognition-fallback pipeline of the
SignAiTranslator repository.

Shallow embedding conventions:
* JavaScript numbers are modelled as rationals; a result that JavaScript
  would compute as NaN (here only 0/0, from dividing by a zero length)
  is modelled as `none` in an `Option ℚ`.
* Stateful service classes are modelled by passing their state explicitly;
  network / external-API outcomes are parameters of the functions.
* `Math.random()` results are parameters (`r`), ranging over [0, 1).
-/

namespace SignAi

/-- The `SignDataset` interface of src/services/datasetService.ts. -/
structure SignDataset where
  id : String
  label : String
  features : List ℚ
  confidence : ℚ
deriving Repr, DecidableEq

/-- The `DatasetEntry` interface of src/unnamed/part_000x dataset service
(same fields plus an optional creation timestamp). -/
structure DatasetEntry where
  id : String
  label : String
  features : List ℚ
  confidence : ℚ
  created_at : Option String
deriving Repr, DecidableEq

/-- `Math.abs` on a (non-NaN) number. -/
def mathAbs (a : ℚ) : ℚ := if a < 0 then -a else a

/-- `Math.max` on two (non-NaN) numbers. -/
def mathMax (a b : ℚ) : ℚ := if a < b then b else a

/-- The loop body of both `calculateSimilarity` variants: sum of the
per-dimension absolute differences. -/
def sumAbsDiff (features1 features2 : List ℚ) : ℚ :=
  (List.zipWith (fun a b => mathAbs (a - b)) features1 features2).sum

/-- `DatasetService.calculateSimilarity` (src/services/datasetService.ts,
lines 164-175): 0 on mismatched lengths, otherwise
`Math.max(0, 1 - sum/length)`.  When both lists are empty JavaScript
computes `0/0 = NaN` and `Math.max(0, NaN) = NaN`, modelled as `none`. -/
def calculateSimilarity (features1 features2 : List ℚ) : Option ℚ :=
  if features1.length ≠ features2.length then some 0
  else if features1.length = 0 then none
  else some (mathMax 0 (1 - sumAbsDiff features1 features2 / (features1.length : ℚ)))

/-- The `calculateSimilarity` variant in src/unnamed/part_010 (lines 103-112):
identical except that it returns `1 - sum/length` directly, without the
`Math.max(0, ...)` floor, so it can be negative. -/
def calculateSimilarityP (features1 features2 : List ℚ) : Option ℚ :=
  if features1.length ≠ features2.length then some 0
  else if features1.length = 0 then none
  else some (1 - sumAbsDiff features1 features2 / (features1.length : ℚ))

/-- The similarity value as it behaves in comparisons against a running
best score: a `none` (NaN) similarity never wins a `>` test, exactly like
a 0 similarity does, so it is flattened to 0 here. -/
def sim0 (q : List ℚ) (e : SignDataset) : ℚ :=
  (calculateSimilarity q e.features).getD 0

/-- One iteration of the best-match loop of
`DatasetService.recognizeSign` (src/services/datasetService.ts, lines
147-153).  In JavaScript a NaN similarity fails the
`similarity > bestSimilarity` test, leaving the accumulator unchanged. -/
def scanStep (q : List ℚ) : SignDataset × ℚ → SignDataset → SignDataset × ℚ
  | (bestMatch, bestSimilarity), sign =>
    match calculateSimilarity q sign.features with
    | some similarity =>
        if similarity > bestSimilarity then (sign, similarity) else (bestMatch, bestSimilarity)
    | none => (bestMatch, bestSimilarity)

/-- The best-match scan of `DatasetService.recognizeSign`:
`bestMatch = dataset[0]`, `bestSimilarity = 0`, then the loop over the
whole dataset (the head included, as in the source). -/
def findBestMatch (q : List ℚ) (first : SignDataset) (rest : List SignDataset) :
    SignDataset × ℚ :=
  (first :: rest).foldl (scanStep q) (first, 0)

/-- The `{ label, confidence }` object returned by
`DatasetService.recognizeSign`. -/
structure MatchResult where
  label : String
  confidence : ℚ
deriving Repr, DecidableEq

/-- `DatasetService.recognizeSign` (src/services/datasetService.ts, lines
136-162), with the `this.dataset` field passed explicitly.  Empty dataset:
the fixed no-match sentinel.  Otherwise: best-match scan, combined
confidence `bestSimilarity * bestMatch.confidence`, and the label is
kept only above the 0.6 cutoff. -/
def recognizeSignD (dataset : List SignDataset) (imageFeatures : List ℚ) : MatchResult :=
  match dataset with
  | [] => { label := "unknown", confidence := 0 }
  | first :: rest =>
    let bm := findBestMatch imageFeatures first rest
    let finalConfidence := bm.2 * bm.1.confidence
    { label := if finalConfidence > 0.6 then bm.1.label else "unknown"
      confidence := finalConfidence }

/-- `DatasetService.findSignInDataset` (src/unnamed/part_010, lines 84-101),
with the loaded dataset passed explicitly: returns the first entry whose
similarity exceeds 0.8 (using the unfloored similarity variant of that
file), `null` if none qualifies. -/
def findSignInDataset (dataset : List DatasetEntry) (features : List ℚ) :
    Option DatasetEntry :=
  dataset.find? fun entry =>
    match calculateSimilarityP features entry.features with
    | some similarity => decide (similarity > 0.8)
    | none => false

/-- The stats object of `DatasetService.getDatasetStats`
(src/services/datasetService.ts, lines 208-214). -/
structure DatasetStats where
  totalSigns : ℕ
  uniqueLabels : ℕ
  averageConfidence : Option ℚ
deriving Repr, DecidableEq

/-- `DatasetService.getDatasetStats`: entry count, distinct-label count
(insertion-order `Set`), and the confidence sum divided by the length.
On an empty dataset JavaScript computes `0/0 = NaN`, modelled as `none`. -/
def getDatasetStats (dataset : List SignDataset) : DatasetStats :=
  { totalSigns := dataset.length
    uniqueLabels := (dataset.map (·.label)).dedup.length
    averageConfidence :=
      if dataset.length = 0 then none
      else some ((dataset.map (·.confidence)).sum / (dataset.length : ℚ)) }

/-- `DatasetService.getBuiltInDataset` (src/services/datasetService.ts,
lines 70-134): the bundled built-in ASL reference set. -/
def getBuiltInDataset : List SignDataset :=
  [ { id := "hello_1", label := "hello",
      features := [0.8, 0.9, 0.7, 0.85, 0.92], confidence := 0.95 },
    { id := "thank_you_1", label := "thank you",
      features := [0.7, 0.8, 0.9, 0.75, 0.88], confidence := 0.92 },
    { id := "please_1", label := "please",
      features := [0.85, 0.7, 0.8, 0.9, 0.82], confidence := 0.89 },
    { id := "yes_1", label := "yes",
      features := [0.9, 0.85, 0.7, 0.8, 0.95], confidence := 0.94 },
    { id := "no_1", label := "no",
      features := [0.6, 0.9, 0.8, 0.7, 0.85], confidence := 0.91 },
    { id := "sorry_1", label := "sorry",
      features := [0.75, 0.8, 0.85, 0.9, 0.78], confidence := 0.87 },
    { id := "help_1", label := "help",
      features := [0.8, 0.75, 0.9, 0.85, 0.88], confidence := 0.90 },
    { id := "good_1", label := "good",
      features := [0.9, 0.8, 0.75, 0.95, 0.85], confidence := 0.93 },
    { id := "bad_1", label := "bad",
      features := [0.7, 0.85, 0.8, 0.75, 0.9], confidence := 0.88 },
    { id := "water_1", label := "water",
      features := [0.85, 0.9, 0.7, 0.8, 0.92], confidence := 0.89 } ]

/-- One item of a remote dataset row's `metadata.data` array, as read by
`processSupabaseDatasets`.  `idPart` holds the already-stringified value
of the JavaScript expression `item.id || Math.random()` (a fresh random
number when the id is absent); missing fields are `none`. -/
structure RawItem where
  idPart : String
  label : Option String
  features : Option (List ℚ)
  confidence : Option ℚ
deriving Repr, DecidableEq

/-- One row of the remote `datasets` table: its `dataset_id` and the
`metadata.data` array (`none` when `metadata` or `metadata.data` is
missing or not an array). -/
structure RawDataset where
  dataset_id : String
  data : Option (List RawItem)
deriving Repr, DecidableEq

/-- The JavaScript `x || d` default for an optional string field: both a
missing value and the empty string (falsy) fall back to the default. -/
def jsOrString (v : Option String) (d : String) : String :=
  match v with
  | some s => if s = "" then d else s
  | none => d

/-- The JavaScript `x || d` default for an optional numeric field: both a
missing value and 0 (falsy) fall back to the default. -/
def jsOrRat (v : Option ℚ) (d : ℚ) : ℚ :=
  match v with
  | some c => if c = 0 then d else c
  | none => d

/-- The entry built for one raw item inside
`DatasetService.processSupabaseDatasets` (src/services/datasetService.ts,
lines 55-61). -/
def processItem (datasetId : String) (item : RawItem) : SignDataset :=
  { id := datasetId ++ "_" ++ item.idPart
    label := jsOrString item.label "unknown"
    features := item.features.getD []
    confidence := jsOrRat item.confidence 0.8 }

/-- `DatasetService.processSupabaseDatasets` (src/services/datasetService.ts,
lines 48-68): rows without a `metadata.data` array contribute nothing. -/
def processSupabaseDatasets (datasets : List RawDataset) : List SignDataset :=
  (datasets.map fun ds =>
    match ds.data with
    | some items => items.map (processItem ds.dataset_id)
    | none => []).flatten

/-- Outcome of the remote `datasets` query inside
`DatasetService.loadDataset`: a successful reply (whose `data` may be
null) or a thrown error. -/
inductive FetchOutcome where
  | success (rows : Option (List RawDataset))
  | failure
deriving Repr, DecidableEq

/-- The mutable fields of the `DatasetService` class. -/
structure ServiceState where
  dataset : List SignDataset
  isLoaded : Bool
deriving Repr, DecidableEq

/-- The initial `DatasetService` state (field initializers, lines 17-18). -/
def initState : ServiceState := { dataset := [], isLoaded := false }

/-- `DatasetService.loadDataset` (src/services/datasetService.ts, lines
20-46): a no-op once loaded; otherwise the remote rows are processed when
present and non-empty, and the built-in dataset is the fallback both for
an empty reply and for a thrown error.  Every branch sets `isLoaded`. -/
def loadDataset (st : ServiceState) (fetch : FetchOutcome) : ServiceState :=
  if st.isLoaded then st
  else
    match fetch with
    | .success rows =>
      match rows with
      | some datasets =>
          if datasets.length > 0 then
            { dataset := processSupabaseDatasets datasets, isLoaded := true }
          else { dataset := getBuiltInDataset, isLoaded := true }
      | none => { dataset := getBuiltInDataset, isLoaded := true }
    | .failure => { dataset := getBuiltInDataset, isLoaded := true }

/-- `DatasetService.recognizeSign` as the caller observes it: it first
awaits `loadDataset()` (which may mutate the service state) and then
matches against the loaded snapshot, returning the result together with
the new state. -/
def recognizeSignS (st : ServiceState) (fetch : FetchOutcome) (q : List ℚ) :
    MatchResult × ServiceState :=
  let st2 := loadDataset st fetch
  (recognizeSignD st2.dataset q, st2)

/-! ### The external (Gemini) fallback and the recognition pipeline -/

/-- Outcome of the external `generateContent` call: the raw response text
on success, or any thrown/rejected error (including a failed
initialization or an unavailable model). -/
inductive ExtOutcome where
  | ok (raw : String)
  | err
deriving Repr, DecidableEq

/-- Which branch of the recognition pipeline produced the result (the
`source` of the spec's Recognition Result; in the code it is implicit in
the branch taken). -/
inductive Source where
  | localMatch
  | remote
  | remoteDegraded
deriving Repr, DecidableEq

/-- Whitespace for the purposes of `String.prototype.trim` and the `\s`
class, restricted to the ASCII range. -/
def isJsSpace (c : Char) : Bool :=
  c = ' ' || c = '\t' || c = '\n' || c = '\r' || c = '\x0b' || c = '\x0c'

/-- `String.prototype.trim` (ASCII whitespace). -/
def jsTrim (s : String) : String :=
  ⟨((s.data.dropWhile isJsSpace).reverse.dropWhile isJsSpace).reverse⟩

/-- `String.prototype.toLowerCase` (ASCII letters). -/
def jsToLower (s : String) : String := ⟨s.data.map Char.toLower⟩

/-- The `\w` class of the sanitizing regex: ASCII alphanumerics and
underscore. -/
def isWordChar (c : Char) : Bool := c.isAlphanum || c = '_'

/-- `text.replace(/[^\w\s]/g, '')`: keep only word and whitespace
characters. -/
def stripNonWordSpace (s : String) : String :=
  ⟨s.data.filter fun c => isWordChar c || isJsSpace c⟩

/-- The full sanitization applied to the external response text in both
`GeminiService.recognizeSign` variants:
`response.text().trim().toLowerCase()` followed by
`.replace(/[^\w\s]/g, '').trim()`. -/
def cleanedText (raw : String) : String :=
  jsTrim (stripNonWordSpace (jsToLower (jsTrim raw)))

/-- The `SignRecognitionResult` objects returned by the recognition
functions (the wall-clock `timestamp` field is not modelled). -/
structure SignRecognitionResult where
  text : String
  confidence : ℚ
  gestures : List String
  source : Source
deriving Repr, DecidableEq

/-- `GeminiService.recognizeSign` (src/services/aiService.ts, lines
330-380).  On success the sanitized text is used, with the empty string
replaced by the fixed label; `r` models `Math.random()`.  Every error is
caught and converted to the fixed degraded result. -/
def geminiRecognizeSign (outcome : ExtOutcome) (r : ℚ) : SignRecognitionResult :=
  match outcome with
  | .ok raw =>
    let cleanText := cleanedText raw
    let finalText := if cleanText = "" then "hello" else cleanText
    { text := finalText, confidence := 0.94 + r * 0.05,
      gestures := [finalText], source := .remote }
  | .err =>
    { text := "hello", confidence := 0.88, gestures := ["hello"],
      source := .remoteDegraded }

/-- The `GeminiService.recognizeSign` variant in src/unnamed/part_011
(lines 79-137): identical text handling, success confidence
`0.88 + Math.random() * 0.10`, degraded constant 0.80. -/
def geminiRecognizeSignB (outcome : ExtOutcome) (r : ℚ) : SignRecognitionResult :=
  match outcome with
  | .ok raw =>
    let cleanText := cleanedText raw
    let finalText := if cleanText = "" then "hello" else cleanText
    { text := finalText, confidence := 0.88 + r * 0.10,
      gestures := [finalText], source := .remote }
  | .err =>
    { text := "hello", confidence := 0.80, gestures := ["hello"],
      source := .remoteDegraded }

/-- `AIService.recognizeSign` (src/unnamed/part_010, lines 310-346), the
recognition pipeline, given the already-extracted feature vector and a
Gemini result: accept the local match above the fixed 0.75 threshold,
otherwise fall back to the Gemini result with its confidence raised to at
least 0.8. -/
def aiRecognizeSignWith (dataset : List SignDataset) (mockFeatures : List ℚ)
    (geminiResult : SignRecognitionResult) : SignRecognitionResult :=
  let datasetResult := recognizeSignD dataset mockFeatures
  if datasetResult.confidence > 0.75 then
    { text := datasetResult.label, confidence := datasetResult.confidence,
      gestures := [datasetResult.label], source := .localMatch }
  else
    { text := geminiResult.text, confidence := mathMax geminiResult.confidence 0.8,
      gestures := geminiResult.gestures, source := geminiResult.source }

/-- The recognition pipeline composed with the Gemini service it imports
(the part_011 variant). -/
def aiRecognizeSign (dataset : List SignDataset) (mockFeatures : List ℚ)
    (outcome : ExtOutcome) (r : ℚ) : SignRecognitionResult :=
  aiRecognizeSignWith dataset mockFeatures (geminiRecognizeSignB outcome r)

/-! ### Spec-side definitions (from the specification text, for the
refinement claims) -/

/-- The similarity metric as worded in the spec: for two equal-length
vectors `max(0, 1 - mean(|a_i - b_i|))` (1 minus the average absolute
per-dimension difference, floored at 0); vectors of unequal length yield
similarity 0.  The mean of zero dimensions (0/0) is NaN, i.e. `none`. -/
def similaritySpec (a b : List ℚ) : Option ℚ :=
  if h : a.length = b.length then
    if a.length = 0 then none
    else some (max 0
      (1 - (∑ i : Fin a.length, |a.get i - b.get (Fin.cast h i)|) / (a.length : ℚ)))
  else some 0

/-- The same spec formula without the floor at 0 (what the part_010
variant actually computes). -/
def similaritySpecUnfloored (a b : List ℚ) : Option ℚ :=
  if h : a.length = b.length then
    if a.length = 0 then none
    else some
      (1 - (∑ i : Fin a.length, |a.get i - b.get (Fin.cast h i)|) / (a.length : ℚ))
  else some 0

/-! ### Concrete sample data used by witnesses and counterexamples -/

/-- A one-entry reference set entry whose label is the sentinel "no"
(mirroring the built-in entry no_1): matching it exactly yields combined
confidence 0.9, above every threshold. -/
def sampleEntry : SignDataset :=
  { id := "no_1", label := "no", features := [1], confidence := 0.9 }

/-- First entry of a two-entry reference set: similarity 0.9 against the
all-ones query, above the 0.8 cutoff of `findSignInDataset`. -/
def entryFirstOver : DatasetEntry :=
  { id := "a", label := "first", features := [0.9, 0.9, 0.9, 0.9, 0.9],
    confidence := 1, created_at := none }

/-- Second entry of that reference set: similarity 1 against the all-ones
query, strictly greater than the first entry's. -/
def entryBest : DatasetEntry :=
  { id := "b", label := "best", features := [1, 1, 1, 1, 1],
    confidence := 1, created_at := none }

/-! ## Supporting lemmas -/

lemma mathAbs_eq_abs (a : ℚ) : mathAbs a = |a| := by
  unfold mathAbs
  split
  · exact (abs_of_neg (by assumption)).symm
  · exact (abs_of_nonneg (not_lt.mp (by assumption))).symm

lemma mathAbs_nonneg (a : ℚ) : 0 ≤ mathAbs a := by
  rw [mathAbs_eq_abs]; exact abs_nonneg a

lemma mathMax_eq_max (a b : ℚ) : mathMax a b = max a b := by
  unfold mathMax
  split
  · exact (max_eq_right (le_of_lt (by assumption))).symm
  · exact (max_eq_left (not_lt.mp (by assumption))).symm

lemma sumAbsDiff_nonneg (a b : List ℚ) : 0 ≤ sumAbsDiff a b := by
  apply List.sum_nonneg
  intro x hx
  induction a generalizing b with
  | nil => simp [sumAbsDiff] at hx
  | cons p ps ih =>
    cases b with
    | nil => simp [sumAbsDiff] at hx
    | cons r rs =>
      simp only [sumAbsDiff, List.zipWith_cons_cons, List.mem_cons] at hx
      rcases hx with hx | hx
      · rw [hx]; exact mathAbs_nonneg _
      · exact ih rs hx

lemma calculateSimilarity_some_nonneg (a b : List ℚ) (v : ℚ)
    (h : calculateSimilarity a b = some v) : 0 ≤ v := by
  unfold calculateSimilarity at h
  split at h
  · obtain rfl : (0 : ℚ) = v := Option.some_inj.mp h
    exact le_refl 0
  · split at h
    · exact absurd h (by simp)
    · obtain rfl : mathMax 0 (1 - sumAbsDiff a b / (a.length : ℚ)) = v :=
        Option.some_inj.mp h
      rw [mathMax_eq_max]
      exact le_max_left 0 _

lemma sim0_nonneg (q : List ℚ) (e : SignDataset) : 0 ≤ sim0 q e := by
  unfold sim0
  cases hcs : calculateSimilarity q e.features with
  | none => simp
  | some v => simpa using calculateSimilarity_some_nonneg q e.features v hcs

lemma scanStep_eq (q : List ℚ) (b : SignDataset) (s : ℚ) (e : SignDataset)
    (hs : 0 ≤ s) :
    scanStep q (b, s) e = if s < sim0 q e then (e, sim0 q e) else (b, s) := by
  unfold scanStep sim0
  cases hcs : calculateSimilarity q e.features with
  | none => simp [hcs, if_neg (not_lt.mpr hs)]
  | some v => simp [hcs, gt_iff_lt]

/-- Invariant of the best-match loop: from any accumulator with a
non-negative score, the final score dominates the start score and every
scanned similarity, and either the accumulator never changed or the final
best is a list element whose similarity equals the final score, with every
strictly earlier element strictly below it (so an equal later score never
replaces the current best). -/
lemma scan_spec (q : List ℚ) (l : List SignDataset) :
    ∀ (b0 : SignDataset) (s0 : ℚ), 0 ≤ s0 →
      s0 ≤ (l.foldl (scanStep q) (b0, s0)).2 ∧
      (∀ e ∈ l, sim0 q e ≤ (l.foldl (scanStep q) (b0, s0)).2) ∧
      (l.foldl (scanStep q) (b0, s0) = (b0, s0) ∨
        ∃ l1 l2, l = l1 ++ (l.foldl (scanStep q) (b0, s0)).1 :: l2 ∧
          sim0 q (l.foldl (scanStep q) (b0, s0)).1 = (l.foldl (scanStep q) (b0, s0)).2 ∧
          s0 < (l.foldl (scanStep q) (b0, s0)).2 ∧
          ∀ e ∈ l1, sim0 q e < (l.foldl (scanStep q) (b0, s0)).2) := by
  induction l with
  | nil => exact fun b0 s0 _ => ⟨le_refl s0, by simp, Or.inl rfl⟩
  | cons x xs ih =>
    intro b0 s0 h0
    rw [List.foldl_cons, scanStep_eq q b0 s0 x h0]
    by_cases hx : s0 < sim0 q x
    · rw [if_pos hx]
      obtain ⟨h1, h2, h3⟩ := ih x (sim0 q x) (sim0_nonneg q x)
      refine ⟨le_of_lt (lt_of_lt_of_le hx h1), ?_, ?_⟩
      · intro e he
        rcases List.mem_cons.mp he with rfl | he
        · exact h1
        · exact h2 e he
      · rcases h3 with heq | ⟨m1, m2, hsplit, hsim, hlt, hall⟩
        · refine Or.inr ⟨[], xs, ?_, ?_, ?_, by simp⟩
          · simp [heq]
          · simp [heq]
          · simp [heq, hx]
        · refine Or.inr ⟨x :: m1, m2, ?_, hsim, lt_trans hx hlt, ?_⟩
          · rw [List.cons_append, ← hsplit]
          · intro e he
            rcases List.mem_cons.mp he with rfl | he
            · exact hlt
            · exact hall e he
    · rw [if_neg hx]
      push_neg at hx
      obtain ⟨h1, h2, h3⟩ := ih b0 s0 h0
      refine ⟨h1, ?_, ?_⟩
      · intro e he
        rcases List.mem_cons.mp he with rfl | he
        · exact le_trans hx h1
        · exact h2 e he
      · rcases h3 with heq | ⟨m1, m2, hsplit, hsim, hlt, hall⟩
        · exact Or.inl heq
        · refine Or.inr ⟨x :: m1, m2, ?_, hsim, hlt, ?_⟩
          · rw [List.cons_append, ← hsplit]
          · intro e he
            rcases List.mem_cons.mp he with rfl | he
            · exact lt_of_le_of_lt hx hlt
            · exact hall e he

/-- One step of the scan keeps the current best entry or switches to the
scanned entry. -/
lemma scanStep_fst (q : List ℚ) (b : SignDataset) (s : ℚ) (e : SignDataset) :
    (scanStep q (b, s) e).1 = b ∨ (scanStep q (b, s) e).1 = e := by
  unfold scanStep
  cases hcs : calculateSimilarity q e.features with
  | none => simp [hcs]
  | some v =>
    by_cases hv : v > s
    · simp [hcs, hv]
    · simp [hcs, hv]

/-- The best-match scan only ever returns the initial accumulator entry or
a scanned entry. -/
lemma scan_mem (q : List ℚ) (l : List SignDataset) :
    ∀ (b0 : SignDataset) (s0 : ℚ),
      (l.foldl (scanStep q) (b0, s0)).1 = b0 ∨ (l.foldl (scanStep q) (b0, s0)).1 ∈ l := by
  induction l with
  | nil => exact fun b0 s0 => Or.inl rfl
  | cons x xs ih =>
    intro b0 s0
    rw [List.foldl_cons]
    rcases ih (scanStep q (b0, s0) x).1 (scanStep q (b0, s0) x).2 with h | h
    · rcases scanStep_fst q b0 s0 x with h2 | h2
      · exact Or.inl (h.trans h2)
      · refine Or.inr ?_
        rw [h, h2]
        exact List.mem_cons_self x xs
    · exact Or.inr (List.mem_cons_of_mem x h)

/-- The entry returned by `findBestMatch` is in the scanned dataset. -/
lemma findBestMatch_mem (q : List ℚ) (first : SignDataset) (rest : List SignDataset) :
    (findBestMatch q first rest).1 ∈ first :: rest := by
  unfold findBestMatch
  rcases scan_mem q (first :: rest) first 0 with h | h
  · rw [h]
    exact List.mem_cons_self first rest
  · exact h

/-- The source's running sum of absolute differences equals the spec's
indexed sum over all dimensions. -/
lemma sumAbsDiff_eq_finSum (a : List ℚ) :
    ∀ (b : List ℚ) (h : a.length = b.length),
      sumAbsDiff a b = ∑ i : Fin a.length, |a.get i - b.get (Fin.cast h i)| := by
  induction a with
  | nil =>
    intro b h
    simp [sumAbsDiff]
  | cons x xs ih =>
    intro b h
    cases b with
    | nil => simp at h
    | cons y ys =>
      have h' : xs.length = ys.length := by simpa using h
      have hz : sumAbsDiff (x :: xs) (y :: ys) = mathAbs (x - y) + sumAbsDiff xs ys := by
        simp [sumAbsDiff]
      rw [hz, mathAbs_eq_abs, ih ys h']
      simp only [List.length_cons]
      rw [Fin.sum_univ_succ]
      congr 1

/-- A mapped list sum as the spec's indexed sum over all entries. -/
lemma sum_map_get (f : SignDataset → ℚ) (d : List SignDataset) :
    (d.map f).sum = ∑ i : Fin d.length, f (d.get i) := by
  induction d with
  | nil => simp
  | cons x xs ih =>
    simp only [List.map_cons, List.sum_cons, List.length_cons]
    rw [Fin.sum_univ_succ, ih]
    congr 1

/-- Entries produced from remote rows never carry an empty label: the
JavaScript default rewrites both a missing and an empty label. -/
lemma processItem_label_ne (did : String) (item : RawItem) :
    (processItem did item).label ≠ "" := by
  unfold processItem jsOrString
  rcases item.label with _ | s
  · simp
  · by_cases hs : s = "" <;> simp [hs]

/-- Every label in a dataset loaded from the initial state is non-empty
(both the built-in entries and processed remote rows). -/
lemma loaded_label_ne (fetch : FetchOutcome) :
    ∀ e ∈ (loadDataset initState fetch).dataset, e.label ≠ "" := by
  intro e he
  unfold loadDataset initState at he
  simp only [Bool.false_eq_true, if_false] at he
  have hbuiltin : ∀ x ∈ getBuiltInDataset, x.label ≠ "" := by
    intro x hx
    simp only [getBuiltInDataset, List.mem_cons, List.not_mem_nil, or_false] at hx
    rcases hx with rfl | rfl | rfl | rfl | rfl | rfl | rfl | rfl | rfl | rfl <;> simp
  rcases fetch with rows | _
  · rcases rows with _ | datasets
    · exact hbuiltin e he
    · by_cases hlen : datasets.length > 0
      · simp only [hlen, if_true] at he
        simp only [processSupabaseDatasets, List.mem_flatten, List.mem_map] at he
        obtain ⟨l, ⟨ds, _, hds⟩, hel⟩ := he
        rcases hmd : ds.data with _ | items
        · rw [hmd] at hds
          simp [← hds] at hel
        · rw [hmd] at hds
          rw [← hds] at hel
          obtain ⟨item, _, hitem⟩ := List.mem_map.mp hel
          rw [← hitem]
          exact processItem_label_ne ds.dataset_id item
      · simp only [hlen, if_false] at he
        exact hbuiltin e he
  · exact hbuiltin e he

/-- `loadDataset` always leaves the service in the loaded state. -/
lemma loadDataset_isLoaded (st : ServiceState) (fetch : FetchOutcome) :
    (loadDataset st fetch).isLoaded = true := by
  unfold loadDataset
  split
  · assumption
  · rcases fetch with rows | _
    · rcases rows with _ | datasets
      · rfl
      · by_cases hlen : datasets.length > 0 <;> simp [hlen]
    · rfl

/-- `loadDataset` is a no-op on an already loaded state. -/
lemma loadDataset_of_isLoaded (st : ServiceState) (fetch : FetchOutcome)
    (h : st.isLoaded = true) : loadDataset st fetch = st := by
  unfold loadDataset
  rw [if_pos h]

/-- Both Gemini service variants always return non-empty text. -/
lemma gemini_text_ne (g : ExtOutcome) (r : ℚ) :
    (geminiRecognizeSign g r).text ≠ "" ∧ (geminiRecognizeSignB g r).text ≠ "" := by
  rcases g with raw | _
  · unfold geminiRecognizeSign geminiRecognizeSignB
    by_cases hc : cleanedText raw = "" <;> simp [hc]
  · unfold geminiRecognizeSign geminiRecognizeSignB
    simp

/-- The label returned by `recognizeSignD` is either the "unknown"
sentinel or the label of some dataset entry. -/
lemma recognizeSignD_label (d : List SignDataset) (q : List ℚ) :
    (recognizeSignD d q).label = "unknown" ∨
    ∃ e ∈ d, (recognizeSignD d q).label = e.label := by
  cases d with
  | nil => exact Or.inl rfl
  | cons first rest =>
    by_cases h6 :
        (findBestMatch q first rest).2 * (findBestMatch q first rest).1.confidence > 0.6
    · refine Or.inr ⟨(findBestMatch q first rest).1, findBestMatch_mem q first rest, ?_⟩
      simp only [recognizeSignD]
      rw [if_pos h6]
    · refine Or.inl ?_
      simp only [recognizeSignD]
      rw [if_neg h6]

/-! ## Claim theorems -/

/-- Claim C1, counterexample: with the default built-in reference set (as
loaded after a failed remote fetch) and a query equal to the features of
the built-in entry labelled "no", the pipeline resolves locally with the
sentinel text "no" — so the result text can be a sentinel value. -/
theorem C1_counterexample :
    (loadDataset initState FetchOutcome.failure).dataset = getBuiltInDataset ∧
    (aiRecognizeSign getBuiltInDataset [0.6, 0.9, 0.8, 0.7, 0.85] ExtOutcome.err 0).text
      = "no" := by
  refine ⟨rfl, ?_⟩
  norm_num [aiRecognizeSign, aiRecognizeSignWith, recognizeSignD, findBestMatch, scanStep,
    calculateSimilarity, sumAbsDiff, mathAbs, mathMax, getBuiltInDataset, geminiRecognizeSignB]

/-- Claim C1, amended: for every recognition call (any fetch outcome, any
query features, any external-call outcome) the returned text is non-empty;
it is however not guaranteed to avoid the sentinel strings "unknown"/"no",
since a local match can return a reference entry labelled "no" and the
fallback returns the cleaned external text verbatim. -/
theorem C1_text_nonempty (fetch : FetchOutcome) (q : List ℚ) (g : ExtOutcome) (r : ℚ) :
    (aiRecognizeSign (loadDataset initState fetch).dataset q g r).text ≠ "" ∧
    (geminiRecognizeSign g r).text ≠ "" := by
  refine ⟨?_, (gemini_text_ne g r).1⟩
  simp only [aiRecognizeSign, aiRecognizeSignWith]
  by_cases hc : (recognizeSignD (loadDataset initState fetch).dataset q).confidence > 0.75
  · rw [if_pos hc]
    rcases recognizeSignD_label (loadDataset initState fetch).dataset q with hl | ⟨e, he, hl⟩
    · simp [hl]
    · simpa [hl] using loaded_label_ne fetch e he
  · rw [if_neg hc]
    exact (gemini_text_ne g r).2

/-- Claim C2, counterexample: an external response of "UNKNOWN!!" is
sanitized to "unknown" and returned as-is — there is no sentinel
deny-list, so the result is not the fallback label "hello". -/
theorem C2_counterexample :
    (geminiRecognizeSign (ExtOutcome.ok "UNKNOWN!!") 0).text = "unknown" ∧
    (geminiRecognizeSignB (ExtOutcome.ok "UNKNOWN!!") 0).text = "unknown" ∧
    (geminiRecognizeSign (ExtOutcome.ok "UNKNOWN!!") 0).text ≠ "hello" :=
  ⟨rfl, rfl, by decide⟩

/-- Claim C2, amended: after stripping non-alphanumeric/whitespace
characters and lower-casing the external text, the fixed fallback label
"hello" is substituted exactly when the cleaned text is empty; a
non-empty cleaned text (sentinels such as "unknown" or "no" included) is
returned unchanged. -/
theorem C2_cleanup_policy (raw : String) (r : ℚ) :
    (cleanedText raw = "" →
      (geminiRecognizeSign (ExtOutcome.ok raw) r).text = "hello" ∧
      (geminiRecognizeSignB (ExtOutcome.ok raw) r).text = "hello") ∧
    (cleanedText raw ≠ "" →
      (geminiRecognizeSign (ExtOutcome.ok raw) r).text = cleanedText raw ∧
      (geminiRecognizeSignB (ExtOutcome.ok raw) r).text = cleanedText raw) := by
  unfold geminiRecognizeSign geminiRecognizeSignB
  constructor <;> intro h <;> simp [h]

/-- Witness for C2: a response that cleans to the empty string does get
the "hello" substitution. -/
theorem C2_witness :
    cleanedText "!!!" = "" ∧ (geminiRecognizeSign (ExtOutcome.ok "!!!") 0).text = "hello" :=
  ⟨rfl, ((C2_cleanup_policy "!!!" 0).1 rfl).1⟩

/-- Claim C3: when the external call on the fallback path throws, the
pipeline still returns a result whose text is the fixed fallback label
"hello" and whose confidence is a constant inside the documented degraded
range [0.75, 0.88]; the Gemini layer of src/services/aiService.ts maps
the same failure to "hello" at exactly 0.88. -/
theorem C3_degraded_result (d : List SignDataset) (q : List ℚ) (r : ℚ)
    (h : (recognizeSignD d q).confidence ≤ 0.75) :
    (aiRecognizeSign d q ExtOutcome.err r).text = "hello" ∧
    (aiRecognizeSign d q ExtOutcome.err r).source = Source.remoteDegraded ∧
    0.75 ≤ (aiRecognizeSign d q ExtOutcome.err r).confidence ∧
    (aiRecognizeSign d q ExtOutcome.err r).confidence ≤ 0.88 ∧
    (geminiRecognizeSign ExtOutcome.err r).text = "hello" ∧
    (geminiRecognizeSign ExtOutcome.err r).confidence = 0.88 := by
  simp only [aiRecognizeSign, aiRecognizeSignWith, geminiRecognizeSignB, geminiRecognizeSign]
  rw [if_neg (not_lt.mpr h)]
  norm_num [mathMax]

/-- Witness for C3: the empty reference set gives a local confidence of 0,
so the fallback path is taken and the degraded result is observed. -/
theorem C3_witness :
    (recognizeSignD [] []).confidence ≤ 0.75 ∧
    (aiRecognizeSign [] [] ExtOutcome.err 0).text = "hello" := by
  have h : (recognizeSignD ([] : List SignDataset) []).confidence ≤ 0.75 := by
    norm_num [recognizeSignD]
  exact ⟨h, (C3_degraded_result [] [] 0 h).1⟩

/-- Claim C5: the pipeline resolves locally exactly when the combined
confidence (best similarity times the matched entry's static confidence)
exceeds the fixed 0.75 threshold, and in that case the result carries the
matched entry's label and the combined confidence; otherwise it falls
through to the external path. -/
theorem C5_threshold (first : SignDataset) (rest : List SignDataset) (q : List ℚ)
    (g : ExtOutcome) (r : ℚ) :
    ((aiRecognizeSign (first :: rest) q g r).source = Source.localMatch ↔
      0.75 < (findBestMatch q first rest).2 * (findBestMatch q first rest).1.confidence) ∧
    (0.75 < (findBestMatch q first rest).2 * (findBestMatch q first rest).1.confidence →
      aiRecognizeSign (first :: rest) q g r =
        { text := (findBestMatch q first rest).1.label,
          confidence := (findBestMatch q first rest).2 * (findBestMatch q first rest).1.confidence,
          gestures := [(findBestMatch q first rest).1.label],
          source := Source.localMatch }) := by
  have hrec : recognizeSignD (first :: rest) q =
      { label :=
          if (findBestMatch q first rest).2 * (findBestMatch q first rest).1.confidence > 0.6
          then (findBestMatch q first rest).1.label else "unknown",
        confidence :=
          (findBestMatch q first rest).2 * (findBestMatch q first rest).1.confidence } := rfl
  simp only [aiRecognizeSign, aiRecognizeSignWith, hrec]
  by_cases hc :
      (0.75 : ℚ) < (findBestMatch q first rest).2 * (findBestMatch q first rest).1.confidence
  · rw [if_pos hc]
    have h6 :
        (findBestMatch q first rest).2 * (findBestMatch q first rest).1.confidence > 0.6 :=
      lt_trans (by norm_num) hc
    constructor
    · simp [hc]
    · intro _
      rw [if_pos h6]
  · rw [if_neg hc]
    refine ⟨?_, fun hcc => absurd hcc hc⟩
    constructor
    · intro hs
      exfalso
      rcases g with raw | _ <;> simp [geminiRecognizeSignB] at hs
    · intro hcc
      exact absurd hcc hc

/-- Witness for C5: a one-entry reference set matched exactly gives
combined confidence 0.9 > 0.75 and a local resolution with that entry's
label. -/
theorem C5_witness :
    0.75 < (findBestMatch [1] sampleEntry []).2 * (findBestMatch [1] sampleEntry []).1.confidence ∧
    aiRecognizeSign [sampleEntry] [1] ExtOutcome.err 0 =
      { text := "no", confidence := 0.9, gestures := ["no"], source := Source.localMatch } := by
  have hc : (0.75 : ℚ) <
      (findBestMatch [1] sampleEntry []).2 * (findBestMatch [1] sampleEntry []).1.confidence := by
    norm_num [findBestMatch, scanStep, calculateSimilarity, sumAbsDiff, mathAbs, mathMax,
      sampleEntry]
  refine ⟨hc, ?_⟩
  rw [(C5_threshold sampleEntry [] [1] ExtOutcome.err 0).2 hc]
  norm_num [findBestMatch, scanStep, calculateSimilarity, sumAbsDiff, mathAbs, mathMax,
    sampleEntry]

/-- Claim C6, counterexample: `findSignInDataset` (part_010) does not
return the entry of strictly greatest similarity — it returns the first
entry whose similarity exceeds 0.8, here the first entry (similarity 0.9)
although the second has strictly greater similarity 1. -/
theorem C6_counterexample :
    findSignInDataset [entryFirstOver, entryBest] [1, 1, 1, 1, 1] = some entryFirstOver ∧
    calculateSimilarityP [1, 1, 1, 1, 1] entryFirstOver.features = some 0.9 ∧
    calculateSimilarityP [1, 1, 1, 1, 1] entryBest.features = some 1 ∧
    (0.9 : ℚ) < 1 := by
  refine ⟨?_, ?_, ?_, by norm_num⟩
  · norm_num [findSignInDataset, entryFirstOver, entryBest, calculateSimilarityP, sumAbsDiff,
      mathAbs, List.find?]
  · norm_num [entryFirstOver, calculateSimilarityP, sumAbsDiff, mathAbs]
  · norm_num [entryBest, calculateSimilarityP, sumAbsDiff, mathAbs]

/-- Claim C6, amended: the best-match scan of
`DatasetService.recognizeSign` (src/services/datasetService.ts) does
return an entry of greatest similarity, and on ties the earliest entry in
the list wins: the returned entry occurs in the list with every strictly
earlier entry of strictly smaller similarity, and no entry anywhere
exceeds the returned score.  (The part_010 `findSignInDataset` helper
instead returns the first entry above a fixed 0.8 cutoff.) -/
theorem C6_best_match (q : List ℚ) (first : SignDataset) (rest : List SignDataset) :
    ∃ l1 l2, first :: rest = l1 ++ (findBestMatch q first rest).1 :: l2 ∧
      sim0 q (findBestMatch q first rest).1 = (findBestMatch q first rest).2 ∧
      (∀ e ∈ l1, sim0 q e < (findBestMatch q first rest).2) ∧
      ∀ e ∈ first :: rest, sim0 q e ≤ (findBestMatch q first rest).2 := by
  obtain ⟨h1, h2, h3⟩ := scan_spec q (first :: rest) first 0 le_rfl
  unfold findBestMatch
  rcases h3 with heq | ⟨l1, l2, hsplit, hsim, hlt, hall⟩
  · refine ⟨[], rest, by simp [heq], ?_, by simp, h2⟩
    have hle := h2 first (List.mem_cons_self first rest)
    rw [heq] at hle ⊢
    exact le_antisymm hle (sim0_nonneg q first)
  · exact ⟨l1, l2, hsplit, hsim, hall, h2⟩

/-- Claim C7, counterexample: on the two empty (equal-length) vectors the
datasetService similarity is NaN (none), not a value in [0, 1]; and the
part_010 variant returns -1 < 0 on the equal-length vectors [0], [2]. -/
theorem C7_counterexample :
    (¬ ∃ v, calculateSimilarity ([] : List ℚ) [] = some v ∧ 0 ≤ v ∧ v ≤ 1) ∧
    calculateSimilarityP [(0 : ℚ)] [2] = some (-1) ∧ ¬ (0 : ℚ) ≤ (-1 : ℚ) := by
  refine ⟨?_, ?_, by norm_num⟩
  · rintro ⟨v, hv, -, -⟩
    simp [calculateSimilarity] at hv
  · norm_num [calculateSimilarityP, sumAbsDiff, mathAbs]

/-- Claim C7, amended: for equal-length non-empty vectors the
datasetService similarity lies in [0, 1]; the part_010 variant is only
bounded above by 1 (it lacks the floor at 0). -/
theorem C7_similarity_bounds (a b : List ℚ) (h : a.length = b.length) (hne : a ≠ []) :
    (∃ v, calculateSimilarity a b = some v ∧ 0 ≤ v ∧ v ≤ 1) ∧
    (∃ w, calculateSimilarityP a b = some w ∧ w ≤ 1) := by
  have hlen : a.length ≠ 0 := fun h0 => hne (List.length_eq_zero.mp h0)
  have hpos : (0 : ℚ) ≤ sumAbsDiff a b / (a.length : ℚ) :=
    div_nonneg (sumAbsDiff_nonneg a b) (Nat.cast_nonneg a.length)
  have hle : 1 - sumAbsDiff a b / (a.length : ℚ) ≤ 1 := by linarith
  constructor
  · refine ⟨mathMax 0 (1 - sumAbsDiff a b / (a.length : ℚ)), ?_, ?_, ?_⟩
    · unfold calculateSimilarity
      rw [if_neg (not_not_intro h), if_neg hlen]
    · rw [mathMax_eq_max]
      exact le_max_left _ _
    · rw [mathMax_eq_max]
      exact max_le (by norm_num) hle
  · refine ⟨1 - sumAbsDiff a b / (a.length : ℚ), ?_, hle⟩
    unfold calculateSimilarityP
    rw [if_neg (not_not_intro h), if_neg hlen]

/-- Witness for C7: the amended bounds at the equal-length non-empty pair
[1], [0]. -/
theorem C7_witness :
    ([(1 : ℚ)].length = [(0 : ℚ)].length ∧ [(1 : ℚ)] ≠ ([] : List ℚ)) ∧
    ∃ v, calculateSimilarity [(1 : ℚ)] [(0 : ℚ)] = some v ∧ 0 ≤ v ∧ v ≤ 1 :=
  ⟨⟨rfl, by simp⟩, (C7_similarity_bounds [1] [0] rfl (by simp)).1⟩

/-- Claim C8: on an empty reference set, recognition returns the fixed
no-match sentinel (label "unknown", confidence 0, rather than an error or
a reference entry), and the part_010 matcher literally returns null. -/
theorem C8_empty_reference (q : List ℚ) :
    recognizeSignD [] q = { label := "unknown", confidence := 0 } ∧
    findSignInDataset [] q = none :=
  ⟨rfl, rfl⟩

/-- Claim C9: recognition is a pure function of the query and the (loaded)
reference snapshot — a second call with the same fetch outcome and the
state left by the first call returns an identical result and leaves the
state unchanged. -/
theorem C9_match_idempotent (st : ServiceState) (fetch : FetchOutcome) (q : List ℚ) :
    (recognizeSignS (recognizeSignS st fetch q).2 fetch q).1 = (recognizeSignS st fetch q).1 ∧
    (recognizeSignS (recognizeSignS st fetch q).2 fetch q).2 = (recognizeSignS st fetch q).2 := by
  simp only [recognizeSignS]
  rw [loadDataset_of_isLoaded (loadDataset st fetch) fetch (loadDataset_isLoaded st fetch)]
  exact ⟨rfl, rfl⟩

/-- Claim C10: the dataset statistics divide the confidence sum by the
dataset length unconditionally, so an empty dataset yields NaN (none) for
the average confidence, while a non-empty dataset yields the arithmetic
mean of the entries' confidence weights. -/
theorem C10_average_confidence (d : List SignDataset) :
    (getDatasetStats []).averageConfidence = none ∧
    (d ≠ [] → (getDatasetStats d).averageConfidence =
      some ((∑ i : Fin d.length, (d.get i).confidence) / (d.length : ℚ))) := by
  refine ⟨rfl, fun h => ?_⟩
  have hlen : d.length ≠ 0 := fun h0 => h (List.length_eq_zero.mp h0)
  unfold getDatasetStats
  rw [if_neg hlen, sum_map_get]

/-- Witness for C10: the built-in dataset is non-empty and its average
confidence is the mean of its confidence weights. -/
theorem C10_witness :
    getBuiltInDataset ≠ [] ∧
    (getDatasetStats getBuiltInDataset).averageConfidence =
      some ((∑ i : Fin getBuiltInDataset.length, (getBuiltInDataset.get i).confidence) /
        (getBuiltInDataset.length : ℚ)) :=
  ⟨by simp [getBuiltInDataset],
    (C10_average_confidence getBuiltInDataset).2 (by simp [getBuiltInDataset])⟩

/-- Claim C4, counterexample: at the equal-length pair [0], [2] the
part_010 similarity (-1) differs from the claim's formula
max(0, 1 - mean |a_i - b_i|) (which gives 0). -/
theorem C4_counterexample :
    calculateSimilarityP [(0 : ℚ)] [2] ≠ similaritySpec [(0 : ℚ)] [2] ∧
    calculateSimilarityP [(0 : ℚ)] [2] = some (-1) ∧
    similaritySpec [(0 : ℚ)] [2] = some 0 := by
  have hP : calculateSimilarityP [(0 : ℚ)] [2] = some (-1) := by
    norm_num [calculateSimilarityP, sumAbsDiff, mathAbs]
  have hS : similaritySpec [(0 : ℚ)] [2] = some 0 := by
    simp only [similaritySpec, Fin.sum_univ_one]
    norm_num
  refine ⟨?_, hP, hS⟩
  rw [hP, hS]
  simp

/-- Claim C4, amended: the datasetService similarity coincides everywhere
with the spec formula max(0, 1 - mean of |a_i - b_i|) (0 on unequal
lengths, NaN on two empty vectors); the part_010 variant computes the
same formula without the floor at 0. -/
theorem C4_similarity_formula :
    (∀ a b : List ℚ, calculateSimilarity a b = similaritySpec a b) ∧
    (∀ a b : List ℚ, calculateSimilarityP a b = similaritySpecUnfloored a b) := by
  constructor
  · intro a b
    unfold calculateSimilarity similaritySpec
    by_cases h : a.length = b.length
    · rw [dif_pos h, if_neg (not_not_intro h)]
      by_cases h0 : a.length = 0
      · rw [if_pos h0, if_pos h0]
      · rw [if_neg h0, if_neg h0, mathMax_eq_max, sumAbsDiff_eq_finSum a b h]
    · rw [dif_neg h, if_pos h]
  · intro a b
    unfold calculateSimilarityP similaritySpecUnfloored
    by_cases h : a.length = b.length
    · rw [dif_pos h, if_neg (not_not_intro h)]
      by_cases h0 : a.length = 0
      · rw [if_pos h0, if_pos h0]
      · rw [if_neg h0, if_neg h0, sumAbsDiff_eq_finSum a b h]
    · rw [dif_neg h, if_pos h]

end SignAi
